import Mathlib

/-!
Verification of the Braintree assessor scraping core
(`BraintreeScraper.py` / `BraintreeAssessorScraper.py`).

The scraper's session-managed driver loop is shallowly embedded as a
state-passing interpreter: HTTP traffic is modelled by an environment
function from (request index, request) to response, the BeautifulSoup
field extraction (an external collaborator per the design) is a
parameter, and Python strings are modelled as `List Char`.
-/

namespace Braintree

set_option maxRecDepth 100000

/-- Python whitespace (the separator class of `str.split()` with no
arguments, restricted to ASCII): space, tab, newline, carriage return,
vertical tab, form feed. -/
def isSpace (c : Char) : Bool :=
  c = ' ' || c = '\t' || c = '\n' || c = '\r' || c.toNat = 11 || c.toNat = 12

/-- Helper for `pySplit`: returns the (possibly empty) token currently
being accumulated at the front together with the completed tokens. -/
def pySplitAux : List Char → List Char × List (List Char)
  | [] => ([], [])
  | c :: rest =>
    let p := pySplitAux rest
    if isSpace c then
      ([], if p.1.isEmpty then p.2 else p.1 :: p.2)
    else
      (c :: p.1, p.2)

/-- Python `text.split()` (no arguments): split on runs of whitespace,
discarding empty tokens. -/
def pySplit (l : List Char) : List (List Char) :=
  let p := pySplitAux l
  if p.1.isEmpty then p.2 else p.1 :: p.2

/-- Python `' '.join(words)`. -/
def joinWords : List (List Char) → List Char
  | [] => []
  | [w] => w
  | w :: x :: ws => w ++ ' ' :: joinWords (x :: ws)

/-- `SlowBraintreePropertyScraper._clean_text` (BraintreeScraper.py
lines 556-561): `None`/empty input maps to `None`; otherwise whitespace
is normalised with `' '.join(text.split())` and an empty or `'--'`
result maps to `None`. -/
def cleanText (text : Option (List Char)) : Option (List Char) :=
  match text with
  | none => none
  | some t =>
    if t.isEmpty then none
    else
      let cleaned := joinWords (pySplit t)
      if !cleaned.isEmpty && cleaned != ['-', '-'] then some cleaned else none

/-- `clean_text` from BraintreeAssessorScraper.py lines 23-27 (the
second scraper file's copy of the text cleaner). -/
def clean_text (text : Option (List Char)) : Option (List Char) :=
  match text with
  | none => none
  | some t =>
    if t.isEmpty then none
    else
      let cleaned := joinWords (pySplit t)
      if !cleaned.isEmpty && cleaned != ['-', '-'] then some cleaned else none

/-- Python's substring test `pat in s`, on the `List Char` model. -/
def containsSub (pat : List Char) : List Char → Bool
  | [] => pat.isEmpty
  | c :: rest => pat.isPrefixOf (c :: rest) || containsSub pat rest

/-- The server's session-timeout marker string checked by
`_is_session_expired`. -/
def sessionTimeoutMarker : List Char :=
  "Either no search has been executed or your session has timed out".toList

/-- `_is_session_expired` (BraintreeScraper.py lines 160-173): `none`
models a falsy (`None`) body; an empty body is likewise falsy.  The body
is classified as expired if it contains the session-timeout marker or is
shorter than 1000 characters. -/
def isSessionExpired : Option (List Char) → Bool
  | none => true
  | some html =>
    if html.isEmpty then true
    else if containsSub sessionTimeoutMarker html then true
    else if html.length < 1000 then true
    else false

/-- The HTTP requests the scraping core issues.  `homePage` is the
priming GET of `default.asp`, `search` the priming/search POST to
`SearchResults.asp`; `summary`, `summaryBottom`, `salesHistory` and
`prevAssess` are the per-record data fetches (`Summary.asp`,
`summary-bottom.asp`, `g_sales.asp`, `g_previous.asp`). -/
inductive Req where
  | homePage : Req
  | search : Req
  | summary (acct : String) : Req
  | summaryBottom (acct : String) : Req
  | salesHistory (acct : String) : Req
  | prevAssess : Req
deriving DecidableEq, Repr

/-- The data-fetching requests (record summary page, detail frame and
sub-pages) as opposed to the priming navigation/search requests. -/
def Req.isDataFetch : Req → Bool
  | .homePage => false
  | .search => false
  | .summary _ => true
  | .summaryBottom _ => true
  | .salesHistory _ => true
  | .prevAssess => true

/-- A response: an HTTP status with a body, or a raised transport
exception. -/
inductive Resp where
  | ok (status : Nat) (body : List Char) : Resp
  | exn (msg : String) : Resp
deriving DecidableEq, Repr

/-- The server, modelled as a function from the index of the request in
the run's request sequence and the request itself to its response. -/
def Env : Type := Nat → Req → Resp

/-- One row of the sales-history sub-table. -/
structure SaleRow where
  sale_date : List Char
  sale_price : List Char
  legal_reference : List Char
  grantor : List Char
deriving DecidableEq, Repr

/-- One row of the historical-assessments sub-table. -/
structure AssessRow where
  year : Nat
  total_value : Nat
deriving DecidableEq, Repr

/-- The output unit (`property_data` dict).  The ~30 scalar fields other
than the primary location are filled by the out-of-scope BeautifulSoup
field extractor and are not read by any control-flow decision, so only
the fields the core inspects are carried. -/
structure PropertyRecord where
  account_number : String
  location : Option (List Char)
  sales_history : List SaleRow
  historical_assessments : List AssessRow
deriving DecidableEq, Repr

/-- The out-of-scope field-extraction collaborator
(`_extract_property_data_fixed` and the two sub-table parsers), as a
parameter: it turns a response body into the primary location field
resp. the parsed sub-table rows. -/
structure Extractor where
  extractLocation : List Char → Option (List Char)
  parseSales : List Char → List SaleRow
  parseAssess : List Char → List AssessRow

/-- The `self.stats` counter dictionary. -/
structure Stats where
  total_attempted : Nat
  successful : Nat
  http_errors : Nat
  empty_responses : Nat
  extraction_errors : Nat
  session_resets : Nat
deriving DecidableEq, Repr

/-- The scraper object's mutable state.  `trace` records every issued
HTTP request together with the value of `session_valid` at the moment it
was issued (its length is the request clock feeding `Env`);
`snapshots` records each `_save_progress` call as (timestamp, saved
records), the timestamp being the monotone request clock (the code uses
a second-granularity wall timestamp in the snapshot filename; distinct
timestamps mean distinct filenames). -/
structure ScraperState where
  properties : List PropertyRecord
  failed_properties : List (String × String)
  session_valid : Bool
  request_count : Nat
  stats : Stats
  trace : List (Bool × Req)
  snapshots : List (Nat × List PropertyRecord)
deriving DecidableEq, Repr

/-- The freshly constructed scraper (`__init__`): empty collections,
zero counters, `session_valid = False`. -/
def initialState : ScraperState :=
  { properties := []
    failed_properties := []
    session_valid := false
    request_count := 0
    stats := ⟨0, 0, 0, 0, 0, 0⟩
    trace := []
    snapshots := [] }

/-- Python dict assignment `d[k] = v` on an insertion-ordered
association list whose keys are unique: overwrite the entry in place or
append a new one. -/
def dictSet : List (String × String) → String → String → List (String × String)
  | [], k, v => [(k, v)]
  | p :: rest, k, v => if p.1 == k then (k, v) :: rest else p :: dictSet rest k v

/-- Python dict lookup `d.get(k)`. -/
def dictGet : List (String × String) → String → Option String
  | [], _ => none
  | p :: rest, k => if p.1 == k then some p.2 else dictGet rest k

/-- Record that a request was issued now: it enters the trace tagged
with the current session-validity flag. -/
def pushTrace (r : Req) (st : ScraperState) : ScraperState :=
  { st with trace := st.trace ++ [(st.session_valid, r)] }

/-- `_wait_between_requests` (lines 95-116): bump the request counter;
every 50th call additionally marks the session for refresh
(`session_valid = False`).  The sleeps have no state effect. -/
def waitBetweenRequests (st : ScraperState) : ScraperState :=
  let st := { st with request_count := st.request_count + 1 }
  if st.request_count % 50 == 0 then { st with session_valid := false } else st

/-- `_create_session` (lines 53-93): a fresh transport is created and
the session is marked invalid until established.  The new cookie jar and
randomized client identity have no further observable state. -/
def createSession (st : ScraperState) : ScraperState :=
  { st with session_valid := false }

/-- `_establish_session` (lines 118-158) in a driver run (the search
parameters are always set by `search_properties` before any fetch):
GET the home page, then POST the search; on success `session_valid`
is set and the `session_resets` counter bumped.  Any exception or
non-200 status yields `False`. -/
def establishSession (env : Env) (st : ScraperState) : Bool × ScraperState :=
  let r1 := env st.trace.length .homePage
  let st1 := pushTrace .homePage st
  match r1 with
  | .exn _ => (false, st1)
  | .ok status _ =>
    if status != 200 then (false, st1)
    else
      let r2 := env st1.trace.length .search
      let st2 := pushTrace .search st1
      match r2 with
      | .exn _ => (false, st2)
      | .ok s2 _ =>
        if s2 == 200 then
          (true, { st2 with session_valid := true
                            stats := { st2.stats with
                                       session_resets := st2.stats.session_resets + 1 } })
        else (false, st2)

/-- `_refresh_session_with_search` (lines 175-188): discard the old
transport wholesale and re-establish. -/
def refreshSessionWithSearch (env : Env) (st : ScraperState) : Bool × ScraperState :=
  establishSession env (createSession st)

/-- Bump `stats['total_attempted']`. -/
def bumpAttempted (st : ScraperState) : ScraperState :=
  { st with stats := { st.stats with total_attempted := st.stats.total_attempted + 1 } }

/-- The `except` branch of `_scrape_property_details`:
`stats['extraction_errors'] += 1` and the identifier is recorded with an
exception reason. -/
def recordException (acct msg : String) (st : ScraperState) : ScraperState :=
  { st with
    stats := { st.stats with extraction_errors := st.stats.extraction_errors + 1 }
    failed_properties := dictSet st.failed_properties acct ("Exception: " ++ msg) }

/-- An HTTP-error branch of `_scrape_property_details`:
`stats['http_errors'] += 1` plus a failure-map entry. -/
def recordHttpError (acct reason : String) (st : ScraperState) : ScraperState :=
  { st with
    stats := { st.stats with http_errors := st.stats.http_errors + 1 }
    failed_properties := dictSet st.failed_properties acct reason }

/-- The session-expired branch of `_scrape_property_details`:
`stats['empty_responses'] += 1` plus the `"Session expired"` entry. -/
def recordExpired (acct : String) (st : ScraperState) : ScraperState :=
  { st with
    stats := { st.stats with empty_responses := st.stats.empty_responses + 1 }
    failed_properties := dictSet st.failed_properties acct "Session expired" }

/-- `_scrape_sales_history` (lines 727-752): GET `g_sales.asp`; rows are
parsed only from a 200 response that is not session-expired; any error
yields the empty history. -/
def scrapeSalesHistory (env : Env) (ex : Extractor) (acct : String) (st : ScraperState) :
    List SaleRow × ScraperState :=
  let r := env st.trace.length (.salesHistory acct)
  let st1 := pushTrace (.salesHistory acct) st
  match r with
  | .exn _ => ([], st1)
  | .ok status body =>
    if status == 200 && !isSessionExpired (some body) then (ex.parseSales body, st1)
    else ([], st1)

/-- `_scrape_historical_assessments` (lines 754-790): re-visit the
record's summary page (response unchecked; an exception there propagates
to the caller's bare `except`, leaving the default empty list), then GET
`g_previous.asp` and parse on a non-expired 200. -/
def scrapeHistoricalAssessments (env : Env) (ex : Extractor) (acct : String)
    (st : ScraperState) : List AssessRow × ScraperState :=
  let r0 := env st.trace.length (.summary acct)
  let st1 := pushTrace (.summary acct) st
  match r0 with
  | .exn _ => ([], st1)
  | .ok _ _ =>
    let r := env st1.trace.length .prevAssess
    let st2 := pushTrace .prevAssess st1
    match r with
    | .exn _ => ([], st2)
    | .ok status body =>
      if status == 200 && !isSessionExpired (some body) then (ex.parseAssess body, st2)
      else ([], st2)

/-- `_scrape_property_details` (lines 436-543): bump `total_attempted`;
GET the record's summary page, then its bottom frame; classify expiry on
the bottom-frame response before any sub-page request; on success build
the record (location from the field extractor, sub-collections from the
sub-pages).  Every `None` return first writes a reason into the failure
map. -/
def scrapePropertyDetails (env : Env) (ex : Extractor) (acct : String)
    (st : ScraperState) : Option PropertyRecord × ScraperState :=
  let st0 := bumpAttempted st
  let r1 := env st0.trace.length (.summary acct)
  let st1 := pushTrace (.summary acct) st0
  match r1 with
  | .exn m => (none, recordException acct m st1)
  | .ok status _ =>
    if status != 200 then
      (none, recordHttpError acct ("Main page HTTP " ++ toString status) st1)
    else
      let r2 := env st1.trace.length (.summaryBottom acct)
      let st2 := pushTrace (.summaryBottom acct) st1
      match r2 with
      | .exn m => (none, recordException acct m st2)
      | .ok s2 body =>
        if s2 == 200 then
          if isSessionExpired (some body) then (none, recordExpired acct st2)
          else
            let s3 := scrapeSalesHistory env ex acct st2
            let s4 := scrapeHistoricalAssessments env ex acct s3.2
            (some { account_number := acct
                    location := ex.extractLocation body
                    sales_history := s3.1
                    historical_assessments := s4.1 }, s4.2)
        else
          (none, recordHttpError acct ("Bottom frame HTTP " ++ toString s2) st2)

/-- Python truthiness of `result.get('location')`: a non-`None`,
non-empty string. -/
def isTruthy : Option (List Char) → Bool
  | none => false
  | some s => !s.isEmpty

/-- Whether the retry loop accepts a fetch result
(`if result and result.get('location')`). -/
def acceptable : Option PropertyRecord → Bool
  | none => false
  | some r => isTruthy r.location

/-- The loop body of `_scrape_property_details_with_retry`
(lines 416-434), with `fuel` the number of remaining attempts.  After a
non-accepted attempt the session is refreshed only when
`stats['empty_responses'] > stats['successful']` and this was not the
last attempt; a failed refresh breaks out of the loop. -/
def scrapeWithRetryAux (env : Env) (ex : Extractor) (acct : String) :
    Nat → ScraperState → Option PropertyRecord × ScraperState
  | 0, st => (none, st)
  | fuel + 1, st =>
    let p := scrapePropertyDetails env ex acct st
    if acceptable p.1 then p
    else if p.2.stats.successful < p.2.stats.empty_responses ∧ 1 ≤ fuel then
      let q := refreshSessionWithSearch env p.2
      if q.1 then scrapeWithRetryAux env ex acct fuel q.2
      else (none, q.2)
    else scrapeWithRetryAux env ex acct fuel p.2

/-- `_scrape_property_details_with_retry` with its default
`max_retries=3`. -/
def scrapeWithRetry (env : Env) (ex : Extractor) (acct : String) (st : ScraperState) :
    Option PropertyRecord × ScraperState :=
  scrapeWithRetryAux env ex acct 3 st

/-- `_save_progress` (lines 792-800): dump the full accumulated record
list to a snapshot file named with a fresh timestamp (modelled by the
monotone request clock). -/
def saveProgress (st : ScraperState) : ScraperState :=
  { st with snapshots := st.snapshots ++ [(st.trace.length, st.properties)] }

/-- One iteration of the driver loop in `_process_properties_slowly`
(lines 376-407), carrying the `consecutive_failures` counter: on success
append the record, bump `successful`, reset the counter and checkpoint
when the record count crosses a multiple of 10; on failure bump the
counter, and once it reaches 5 attempt a session refresh, resetting the
counter only if the refresh succeeds.  (No exception escapes
`_scrape_property_details_with_retry` in this model — every raise inside
the fetch is caught there — so the driver's own `except` branch is
unreachable.) -/
def processOne (env : Env) (ex : Extractor) (acct : String) (cf : Nat)
    (st : ScraperState) : Nat × ScraperState :=
  let p := scrapeWithRetry env ex acct st
  match p.1 with
  | some rec =>
    let st1 := { p.2 with
                 properties := p.2.properties ++ [rec]
                 stats := { p.2.stats with successful := p.2.stats.successful + 1 } }
    let st2 := if st1.properties.length % 10 == 0 then saveProgress st1 else st1
    (0, st2)
  | none =>
    if 5 ≤ cf + 1 then
      let q := refreshSessionWithSearch env p.2
      (if q.1 then 0 else cf + 1, q.2)
    else (cf + 1, p.2)

/-- The driver loop over the pending identifiers, threading the
consecutive-failure counter; `_wait_between_requests` runs after every
identifier. -/
def processList (env : Env) (ex : Extractor) :
    List String → Nat → ScraperState → Nat × ScraperState
  | [], cf, st => (cf, st)
  | acct :: rest, cf, st =>
    let q := processOne env ex acct cf st
    processList env ex rest q.1 (waitBetweenRequests q.2)

/-- The `resume_from` slicing at the head of `_process_properties_slowly`
(lines 356-362): drop everything before the resume identifier when it is
present, otherwise keep the whole list. -/
def applyResume (resume : Option String) (l : List String) : List String :=
  match resume with
  | none => l
  | some r => if l.contains r then l.drop (l.indexOf r) else l

/-- `_process_properties_slowly` (lines 349-414): slice for resume,
filter out identifiers already present in the accumulated records, and
run the driver loop with a zeroed consecutive-failure counter. -/
def processPropertiesSlowly (env : Env) (ex : Extractor) (accountNumbers : List String)
    (resume : Option String) (st : ScraperState) : ScraperState :=
  let existing := st.properties.map (fun p => p.account_number)
  let pending := (applyResume resume accountNumbers).filter (fun a => !existing.contains a)
  if pending.isEmpty then st else (processList env ex pending 0 st).2

/-- The deduplication step closing `_collect_all_property_links`
(lines 267-271): `list(set(all_links))` over the raw links extracted
from the result pages. -/
def collectAllPropertyLinks (rawLinks : List String) : List String :=
  rawLinks.dedup

/-! ### Concrete scenarios

Mock servers and extractors used to evaluate the embedded code at
concrete inputs. -/

/-- An extractor that finds nothing (a structurally valid page whose
labelled fields are absent). -/
def exNone : Extractor :=
  { extractLocation := fun _ => none
    parseSales := fun _ => []
    parseAssess := fun _ => [] }

/-- An extractor that always finds a location. -/
def exLoc : Extractor :=
  { extractLocation := fun _ => some ['L']
    parseSales := fun _ => []
    parseAssess := fun _ => [] }

/-- A plausibly long content page: 1000 characters, no session-timeout
marker. -/
def longBody : List Char := List.replicate 1000 'x'

/-- Mock server for the C1 scenario: every request succeeds and the
detail frame is a plausibly long page (in which `exNone` then finds no
location). -/
def env1 : Env := fun _ r =>
  match r with
  | .summaryBottom _ => .ok 200 longBody
  | _ => .ok 200 []

/-- C1 scenario run: one identifier against `env1`/`exNone`. -/
def c1run : ScraperState := processPropertiesSlowly env1 exNone ["679"] none initialState

/-- Mock server for the C2 scenario: every record summary page returns
HTTP 500, priming requests succeed. -/
def env2 : Env := fun _ r =>
  match r with
  | .summary _ => .ok 500 []
  | _ => .ok 200 []

/-- 51 distinct identifiers for the C2 scenario. -/
def ids2 : List String := (List.range 51).map (fun n => "a" ++ toString n)

/-- C2 scenario run: prime once, then drive 51 identifiers through
`env2`, so that the pacer's 50th `_wait_between_requests` call clears
`session_valid` just before the 51st identifier is fetched. -/
def c2run : ScraperState :=
  processPropertiesSlowly env2 exNone ids2 none (establishSession env2 initialState).2

/-- Mock server for the C3 scenario: the detail frame returns HTTP 500
(an HTTP error that leaves `empty_responses` at zero), everything else
succeeds. -/
def env3 : Env := fun _ r =>
  match r with
  | .summaryBottom _ => .ok 500 []
  | _ => .ok 200 []

/-- C3 scenario run: one identifier fetched with retry against `env3`. -/
def c3run : Option PropertyRecord × ScraperState :=
  scrapeWithRetry env3 exNone "679" initialState

/-- Mock server for the C4 scenario: every fetch fails (detail frame
HTTP 500) and every re-prime also fails (home page HTTP 500). -/
def env4 : Env := fun _ r =>
  match r with
  | .homePage => .ok 500 []
  | .summaryBottom _ => .ok 500 []
  | _ => .ok 200 []

/-- Five identifiers for the C4 scenario. -/
def ids4 : List String := ["1", "2", "3", "4", "5"]

/-- C4 scenario run: five consecutive failures with a failing refresh;
the returned pair carries the final `consecutive_failures` counter. -/
def c4run : Nat × ScraperState := processList env4 exNone ids4 0 initialState

/-- Mock server where every fetch fails but the re-prime succeeds (for
the C4 witness). -/
def env4b : Env := fun _ r =>
  match r with
  | .summaryBottom _ => .ok 500 []
  | _ => .ok 200 []

/-- Mock server for the C5 scenario: every response is 200 with an empty
body, so the detail frame is classified as session-expired. -/
def env5 : Env := fun _ _ => .ok 200 []

/-- C5 scenario run: a single `_scrape_property_details` call whose
detail frame is classified expired. -/
def c5run : Option PropertyRecord × ScraperState :=
  scrapePropertyDetails env5 exNone "679" initialState

/-- Mock server where every fetch fully succeeds. -/
def env7 : Env := fun _ r =>
  match r with
  | .summaryBottom _ => .ok 200 longBody
  | _ => .ok 200 []

/-- 23 distinct identifiers for the C7 scenario. -/
def ids7 : List String := (List.range 23).map (fun n => "b" ++ toString n)

/-- C7 scenario run: 23 successful fetches from a fresh state. -/
def c7run : ScraperState := processPropertiesSlowly env7 exLoc ids7 none initialState

/-- C6 scenario run: a raw link list with duplicates. -/
def c6run : ScraperState :=
  processPropertiesSlowly env7 exLoc (collectAllPropertyLinks ["1", "2", "1", "2", "1"])
    none initialState

/-- The checkpoint invariant maintained by the driver loop: every
snapshot holds an initial segment of the accumulated records whose
length is a multiple of 10; snapshot timestamps strictly increase (so
the timestamped filenames never collide) and never exceed the current
request clock; a snapshot exists at every crossed multiple of 10; and
the newest snapshot contains every older one. -/
def SnapInv (st : ScraperState) : Prop :=
  (∀ s ∈ st.snapshots, s.2 <+: st.properties ∧ s.2.length % 10 = 0) ∧
    List.Chain' (· < ·) (st.snapshots.map Prod.fst) ∧
    (∀ s ∈ st.snapshots, s.1 ≤ st.trace.length) ∧
    (∀ k, 0 < k → 10 * k ≤ st.properties.length →
      ∃ s ∈ st.snapshots, s.2.length = 10 * k) ∧
    (∀ s' ∈ st.snapshots, ∃ s, st.snapshots.getLast? = some s ∧ s'.2 <+: s.2)

/-! ### Lemmas about the text cleaner -/

theorem pySplitAux_chars (l : List Char) :
    (∀ c ∈ (pySplitAux l).1, isSpace c = false) ∧
      (∀ w ∈ (pySplitAux l).2, w ≠ [] ∧ ∀ c ∈ w, isSpace c = false) := by
  induction l with
  | nil => simp [pySplitAux]
  | cons c rest ih =>
    obtain ⟨h1, h2⟩ := ih
    by_cases hc : isSpace c
    · refine ⟨?_, ?_⟩
      · simp [pySplitAux, hc]
      · intro w hw
        simp only [pySplitAux, hc, if_true] at hw
        split at hw
        · exact h2 w hw
        · rcases List.mem_cons.mp hw with h | h
          · subst h
            refine ⟨?_, h1⟩
            rename_i hne
            simpa [List.isEmpty_iff] using hne
          · exact h2 w h
    · refine ⟨?_, ?_⟩
      · intro d hd
        simp only [pySplitAux, hc, if_false] at hd
        rcases List.mem_cons.mp hd with h | h
        · subst h; simpa using hc
        · exact h1 d h
      · intro w hw
        simp only [pySplitAux, hc, if_false] at hw
        exact h2 w hw

theorem pySplit_words (l : List Char) :
    ∀ w ∈ pySplit l, w ≠ [] ∧ ∀ c ∈ w, isSpace c = false := by
  intro w hw
  obtain ⟨h1, h2⟩ := pySplitAux_chars l
  simp only [pySplit] at hw
  split at hw
  · exact h2 w hw
  · rcases List.mem_cons.mp hw with h | h
    · subst h
      refine ⟨?_, h1⟩
      rename_i hne
      simpa [List.isEmpty_iff] using hne
    · exact h2 w h

theorem pySplitAux_word_append (w l : List Char) (hw : ∀ c ∈ w, isSpace c = false) :
    pySplitAux (w ++ l) = (w ++ (pySplitAux l).1, (pySplitAux l).2) := by
  induction w with
  | nil => simp
  | cons c rest ih =>
    have hc : isSpace c = false := hw c (by simp)
    have hrest : ∀ c ∈ rest, isSpace c = false := fun d hd => hw d (by simp [hd])
    simp [pySplitAux, hc, ih hrest]

theorem pySplitAux_space_cons (l : List Char) :
    pySplitAux (' ' :: l) = ([], pySplit l) := by
  simp [pySplitAux, pySplit, isSpace]

theorem pySplit_joinWords : ∀ ws : List (List Char),
    (∀ w ∈ ws, w ≠ [] ∧ ∀ c ∈ w, isSpace c = false) → pySplit (joinWords ws) = ws
  | [], _ => by simp [joinWords, pySplit, pySplitAux]
  | [w], h => by
    obtain ⟨hne, hch⟩ := h w (by simp)
    have haux : pySplitAux w = (w, []) := by
      simpa [pySplitAux] using pySplitAux_word_append w [] hch
    simp [joinWords, pySplit, haux, List.isEmpty_iff, hne]
  | w :: x :: ws, h => by
    obtain ⟨hne, hch⟩ := h w (by simp)
    have ih : pySplit (joinWords (x :: ws)) = x :: ws :=
      pySplit_joinWords (x :: ws) (fun w' hw' => h w' (by simp [List.mem_cons] at hw' ⊢; tauto))
    have hstep : joinWords (w :: x :: ws) = w ++ ' ' :: joinWords (x :: ws) := rfl
    rw [pySplit, hstep, pySplitAux_word_append w (' ' :: joinWords (x :: ws)) hch,
      pySplitAux_space_cons, ih]
    simp [List.isEmpty_iff, hne]

theorem cleanText_some (t r : List Char) (h : cleanText (some t) = some r) :
    r = joinWords (pySplit t) ∧ r.isEmpty = false ∧ (r == ['-', '-']) = false := by
  simp only [cleanText] at h
  split at h
  · exact absurd h (by simp)
  · split at h
    · rename_i hguard
      obtain ⟨h1, h2⟩ := Bool.and_eq_true_iff.mp hguard
      obtain rfl : joinWords (pySplit t) = r := by simpa using h
      refine ⟨rfl, by simpa using h1, by simpa [bne] using h2⟩
    · exact absurd h (by simp)

theorem cleanText_idempotent (t : Option (List Char)) (r : List Char)
    (h : cleanText t = some r) : cleanText (some r) = some r := by
  match t with
  | none => simp [cleanText] at h
  | some t =>
    obtain ⟨hr, hne, hdd⟩ := cleanText_some t r h
    have hsplit : pySplit r = pySplit t := by
      rw [hr]; exact pySplit_joinWords (pySplit t) (pySplit_words t)
    simp only [cleanText, hne, hsplit, ← hr]
    simp [hne, bne, hdd]

/-! ### Dictionary lemmas -/

theorem dictGet_dictSet (m : List (String × String)) (k v : String) :
    dictGet (dictSet m k v) k = some v := by
  induction m with
  | nil => simp [dictSet, dictGet]
  | cons p rest ih =>
    by_cases h : p.1 == k
    · simp [dictSet, dictGet, h]
    · simp [dictSet, dictGet, h, ih]

/-! ### Effect lemmas: which state components each operation can touch -/

@[simp] theorem establish_properties (env : Env) (st : ScraperState) :
    (establishSession env st).2.properties = st.properties := by
  unfold establishSession
  dsimp only
  (repeat' split) <;> rfl

@[simp] theorem establish_failed (env : Env) (st : ScraperState) :
    (establishSession env st).2.failed_properties = st.failed_properties := by
  unfold establishSession
  dsimp only
  (repeat' split) <;> rfl

@[simp] theorem establish_snapshots (env : Env) (st : ScraperState) :
    (establishSession env st).2.snapshots = st.snapshots := by
  unfold establishSession
  dsimp only
  (repeat' split) <;> rfl

@[simp] theorem establish_request_count (env : Env) (st : ScraperState) :
    (establishSession env st).2.request_count = st.request_count := by
  unfold establishSession
  dsimp only
  (repeat' split) <;> rfl

@[simp] theorem establish_ta (env : Env) (st : ScraperState) :
    (establishSession env st).2.stats.total_attempted = st.stats.total_attempted := by
  unfold establishSession
  dsimp only
  (repeat' split) <;> rfl

@[simp] theorem establish_succ (env : Env) (st : ScraperState) :
    (establishSession env st).2.stats.successful = st.stats.successful := by
  unfold establishSession
  dsimp only
  (repeat' split) <;> rfl

theorem establish_trace (env : Env) (st : ScraperState) :
    st.trace <+: (establishSession env st).2.trace := by
  unfold establishSession pushTrace
  dsimp only
  (repeat' split) <;> · simp only [List.append_assoc]; exact List.prefix_append _ _

@[simp] theorem refresh_properties (env : Env) (st : ScraperState) :
    (refreshSessionWithSearch env st).2.properties = st.properties := by
  simp [refreshSessionWithSearch, createSession]

@[simp] theorem refresh_failed (env : Env) (st : ScraperState) :
    (refreshSessionWithSearch env st).2.failed_properties = st.failed_properties := by
  simp [refreshSessionWithSearch, createSession]

@[simp] theorem refresh_snapshots (env : Env) (st : ScraperState) :
    (refreshSessionWithSearch env st).2.snapshots = st.snapshots := by
  simp [refreshSessionWithSearch, createSession]

@[simp] theorem refresh_request_count (env : Env) (st : ScraperState) :
    (refreshSessionWithSearch env st).2.request_count = st.request_count := by
  simp [refreshSessionWithSearch, createSession]

@[simp] theorem refresh_ta (env : Env) (st : ScraperState) :
    (refreshSessionWithSearch env st).2.stats.total_attempted = st.stats.total_attempted := by
  simp [refreshSessionWithSearch, createSession]

@[simp] theorem refresh_succ (env : Env) (st : ScraperState) :
    (refreshSessionWithSearch env st).2.stats.successful = st.stats.successful := by
  simp [refreshSessionWithSearch, createSession]

theorem refresh_trace (env : Env) (st : ScraperState) :
    st.trace <+: (refreshSessionWithSearch env st).2.trace := by
  simpa [refreshSessionWithSearch, createSession] using
    establish_trace env (createSession st)

@[simp] theorem sales_stats (env : Env) (ex : Extractor) (a : String) (st : ScraperState) :
    (scrapeSalesHistory env ex a st).2.stats = st.stats := by
  unfold scrapeSalesHistory
  dsimp only
  (repeat' split) <;> rfl

@[simp] theorem sales_properties (env : Env) (ex : Extractor) (a : String) (st : ScraperState) :
    (scrapeSalesHistory env ex a st).2.properties = st.properties := by
  unfold scrapeSalesHistory
  dsimp only
  (repeat' split) <;> rfl

@[simp] theorem sales_failed (env : Env) (ex : Extractor) (a : String) (st : ScraperState) :
    (scrapeSalesHistory env ex a st).2.failed_properties = st.failed_properties := by
  unfold scrapeSalesHistory
  dsimp only
  (repeat' split) <;> rfl

@[simp] theorem sales_snapshots (env : Env) (ex : Extractor) (a : String) (st : ScraperState) :
    (scrapeSalesHistory env ex a st).2.snapshots = st.snapshots := by
  unfold scrapeSalesHistory
  dsimp only
  (repeat' split) <;> rfl

@[simp] theorem sales_request_count (env : Env) (ex : Extractor) (a : String)
    (st : ScraperState) :
    (scrapeSalesHistory env ex a st).2.request_count = st.request_count := by
  unfold scrapeSalesHistory
  dsimp only
  (repeat' split) <;> rfl

theorem sales_trace (env : Env) (ex : Extractor) (a : String) (st : ScraperState) :
    st.trace <+: (scrapeSalesHistory env ex a st).2.trace := by
  unfold scrapeSalesHistory pushTrace
  dsimp only
  (repeat' split) <;> · simp only [List.append_assoc]; exact List.prefix_append _ _

@[simp] theorem hist_stats (env : Env) (ex : Extractor) (a : String) (st : ScraperState) :
    (scrapeHistoricalAssessments env ex a st).2.stats = st.stats := by
  unfold scrapeHistoricalAssessments
  dsimp only
  (repeat' split) <;> rfl

@[simp] theorem hist_properties (env : Env) (ex : Extractor) (a : String) (st : ScraperState) :
    (scrapeHistoricalAssessments env ex a st).2.properties = st.properties := by
  unfold scrapeHistoricalAssessments
  dsimp only
  (repeat' split) <;> rfl

@[simp] theorem hist_failed (env : Env) (ex : Extractor) (a : String) (st : ScraperState) :
    (scrapeHistoricalAssessments env ex a st).2.failed_properties = st.failed_properties := by
  unfold scrapeHistoricalAssessments
  dsimp only
  (repeat' split) <;> rfl

@[simp] theorem hist_snapshots (env : Env) (ex : Extractor) (a : String) (st : ScraperState) :
    (scrapeHistoricalAssessments env ex a st).2.snapshots = st.snapshots := by
  unfold scrapeHistoricalAssessments
  dsimp only
  (repeat' split) <;> rfl

@[simp] theorem hist_request_count (env : Env) (ex : Extractor) (a : String)
    (st : ScraperState) :
    (scrapeHistoricalAssessments env ex a st).2.request_count = st.request_count := by
  unfold scrapeHistoricalAssessments
  dsimp only
  (repeat' split) <;> rfl

theorem hist_trace (env : Env) (ex : Extractor) (a : String) (st : ScraperState) :
    st.trace <+: (scrapeHistoricalAssessments env ex a st).2.trace := by
  unfold scrapeHistoricalAssessments pushTrace
  dsimp only
  (repeat' split) <;> · simp only [List.append_assoc]; exact List.prefix_append _ _

@[simp] theorem scrape_properties (env : Env) (ex : Extractor) (a : String)
    (st : ScraperState) :
    (scrapePropertyDetails env ex a st).2.properties = st.properties := by
  unfold scrapePropertyDetails
  dsimp only
  (repeat' split) <;>
    simp [pushTrace, bumpAttempted, recordException, recordHttpError, recordExpired]

@[simp] theorem scrape_snapshots (env : Env) (ex : Extractor) (a : String)
    (st : ScraperState) :
    (scrapePropertyDetails env ex a st).2.snapshots = st.snapshots := by
  unfold scrapePropertyDetails
  dsimp only
  (repeat' split) <;>
    simp [pushTrace, bumpAttempted, recordException, recordHttpError, recordExpired]

@[simp] theorem scrape_request_count (env : Env) (ex : Extractor) (a : String)
    (st : ScraperState) :
    (scrapePropertyDetails env ex a st).2.request_count = st.request_count := by
  unfold scrapePropertyDetails
  dsimp only
  (repeat' split) <;>
    simp [pushTrace, bumpAttempted, recordException, recordHttpError, recordExpired]

@[simp] theorem scrape_ta (env : Env) (ex : Extractor) (a : String) (st : ScraperState) :
    (scrapePropertyDetails env ex a st).2.stats.total_attempted =
      st.stats.total_attempted + 1 := by
  unfold scrapePropertyDetails
  dsimp only
  (repeat' split) <;>
    simp [pushTrace, bumpAttempted, recordException, recordHttpError, recordExpired]

@[simp] theorem scrape_succ (env : Env) (ex : Extractor) (a : String) (st : ScraperState) :
    (scrapePropertyDetails env ex a st).2.stats.successful = st.stats.successful := by
  unfold scrapePropertyDetails
  dsimp only
  (repeat' split) <;>
    simp [pushTrace, bumpAttempted, recordException, recordHttpError, recordExpired]

theorem scrape_trace (env : Env) (ex : Extractor) (a : String) (st : ScraperState) :
    st.trace <+: (scrapePropertyDetails env ex a st).2.trace := by
  unfold scrapePropertyDetails
  dsimp only
  (repeat' split) <;>
    first
      | (simp only [pushTrace, bumpAttempted, recordException, recordHttpError,
          recordExpired, List.append_assoc]
         exact List.prefix_append _ _)
      | exact List.IsPrefix.trans
          (by simp [pushTrace, bumpAttempted, List.append_assoc])
          ((sales_trace _ _ _ _).trans (hist_trace _ _ _ _))

theorem sales_hist_trace_le (env : Env) (ex : Extractor) (a : String) (st : ScraperState) :
    st.trace.length ≤
      (scrapeHistoricalAssessments env ex a
        (scrapeSalesHistory env ex a st).2).2.trace.length :=
  le_trans (List.IsPrefix.length_le (sales_trace env ex a st))
    (List.IsPrefix.length_le (hist_trace env ex a (scrapeSalesHistory env ex a st).2))

theorem scrape_trace_len (env : Env) (ex : Extractor) (a : String) (st : ScraperState) :
    st.trace.length + 1 ≤ (scrapePropertyDetails env ex a st).2.trace.length := by
  unfold scrapePropertyDetails
  dsimp only
  (repeat' split) <;>
    first
      | (simp [pushTrace, bumpAttempted, recordException, recordHttpError, recordExpired]
         done)
      | (refine le_trans ?_ (sales_hist_trace_le env ex a _)
         simp [pushTrace, bumpAttempted]
         try omega)

theorem scrape_some_acct (env : Env) (ex : Extractor) (a : String) (st : ScraperState)
    (rec : PropertyRecord) (h : (scrapePropertyDetails env ex a st).1 = some rec) :
    rec.account_number = a := by
  unfold scrapePropertyDetails at h
  dsimp only at h
  (repeat' split at h) <;>
    first
      | (simp_all
         done)
      | (obtain rfl : rec = _ := by simpa using h.symm
         rfl)

theorem scrape_none_failed (env : Env) (ex : Extractor) (a : String) (st : ScraperState)
    (h : (scrapePropertyDetails env ex a st).1 = none) :
    ∃ r, dictGet (scrapePropertyDetails env ex a st).2.failed_properties a = some r := by
  unfold scrapePropertyDetails at h ⊢
  dsimp only at h ⊢
  (repeat' split) <;>
    first
      | (simp_all
         done)
      | exact ⟨_, dictGet_dictSet _ _ _⟩

@[simp] theorem wait_properties (st : ScraperState) :
    (waitBetweenRequests st).properties = st.properties := by
  unfold waitBetweenRequests
  dsimp only
  split <;> rfl

@[simp] theorem wait_failed (st : ScraperState) :
    (waitBetweenRequests st).failed_properties = st.failed_properties := by
  unfold waitBetweenRequests
  dsimp only
  split <;> rfl

@[simp] theorem wait_stats (st : ScraperState) :
    (waitBetweenRequests st).stats = st.stats := by
  unfold waitBetweenRequests
  dsimp only
  split <;> rfl

@[simp] theorem wait_trace (st : ScraperState) :
    (waitBetweenRequests st).trace = st.trace := by
  unfold waitBetweenRequests
  dsimp only
  split <;> rfl

@[simp] theorem wait_snapshots (st : ScraperState) :
    (waitBetweenRequests st).snapshots = st.snapshots := by
  unfold waitBetweenRequests
  dsimp only
  split <;> rfl

theorem retryAux_properties (env : Env) (ex : Extractor) (a : String) :
    ∀ fuel st, (scrapeWithRetryAux env ex a fuel st).2.properties = st.properties := by
  intro fuel
  induction fuel with
  | zero => intro st; simp [scrapeWithRetryAux]
  | succ n ih =>
    intro st
    rw [scrapeWithRetryAux]
    dsimp only
    (repeat' split) <;> simp [ih]

theorem retryAux_snapshots (env : Env) (ex : Extractor) (a : String) :
    ∀ fuel st, (scrapeWithRetryAux env ex a fuel st).2.snapshots = st.snapshots := by
  intro fuel
  induction fuel with
  | zero => intro st; simp [scrapeWithRetryAux]
  | succ n ih =>
    intro st
    rw [scrapeWithRetryAux]
    dsimp only
    (repeat' split) <;> simp [ih]

theorem retryAux_succ (env : Env) (ex : Extractor) (a : String) :
    ∀ fuel st, (scrapeWithRetryAux env ex a fuel st).2.stats.successful =
      st.stats.successful := by
  intro fuel
  induction fuel with
  | zero => intro st; simp [scrapeWithRetryAux]
  | succ n ih =>
    intro st
    rw [scrapeWithRetryAux]
    dsimp only
    (repeat' split) <;> simp [ih]

theorem retryAux_ta_mono (env : Env) (ex : Extractor) (a : String) :
    ∀ fuel st, st.stats.total_attempted ≤
      (scrapeWithRetryAux env ex a fuel st).2.stats.total_attempted := by
  intro fuel
  induction fuel with
  | zero => intro st; simp [scrapeWithRetryAux]
  | succ n ih =>
    intro st
    rw [scrapeWithRetryAux]
    dsimp only
    (repeat' split) <;>
      first
        | (simp only [scrape_ta, refresh_ta]; omega)
        | (refine le_trans ?_ (ih _); simp only [refresh_ta, scrape_ta]; omega)

theorem retryAux_ta_le (env : Env) (ex : Extractor) (a : String) :
    ∀ fuel st, (scrapeWithRetryAux env ex a fuel st).2.stats.total_attempted ≤
      st.stats.total_attempted + fuel := by
  intro fuel
  induction fuel with
  | zero => intro st; simp [scrapeWithRetryAux]
  | succ n ih =>
    intro st
    rw [scrapeWithRetryAux]
    dsimp only
    (repeat' split) <;>
      first
        | (simp only [scrape_ta, refresh_ta]; omega)
        | (refine le_trans (ih _) ?_; simp only [refresh_ta, scrape_ta]; omega)

theorem retryAux_ta_ge (env : Env) (ex : Extractor) (a : String) :
    ∀ fuel st, 1 ≤ fuel → st.stats.total_attempted + 1 ≤
      (scrapeWithRetryAux env ex a fuel st).2.stats.total_attempted := by
  intro fuel
  induction fuel with
  | zero => intro st h; omega
  | succ n ih =>
    intro st _
    rw [scrapeWithRetryAux]
    dsimp only
    (repeat' split) <;>
      first
        | (simp only [scrape_ta, refresh_ta]; omega)
        | (refine le_trans ?_ (retryAux_ta_mono env ex a n _)
           simp only [refresh_ta, scrape_ta]
           omega)

theorem retryAux_trace (env : Env) (ex : Extractor) (a : String) :
    ∀ fuel st, st.trace <+: (scrapeWithRetryAux env ex a fuel st).2.trace := by
  intro fuel
  induction fuel with
  | zero => intro st; simp [scrapeWithRetryAux]
  | succ n ih =>
    intro st
    rw [scrapeWithRetryAux]
    dsimp only
    (repeat' split) <;>
      first
        | exact scrape_trace _ _ _ _
        | exact ((scrape_trace _ _ _ _).trans (refresh_trace _ _)).trans (ih _)
        | exact (scrape_trace _ _ _ _).trans (refresh_trace _ _)
        | exact (scrape_trace _ _ _ _).trans (ih _)

theorem retryAux_trace_len (env : Env) (ex : Extractor) (a : String) :
    ∀ fuel st, 1 ≤ fuel → st.trace.length + 1 ≤
      (scrapeWithRetryAux env ex a fuel st).2.trace.length := by
  intro fuel
  induction fuel with
  | zero => intro st h; omega
  | succ n _ =>
    intro st _
    rw [scrapeWithRetryAux]
    dsimp only
    (repeat' split) <;>
      first
        | exact scrape_trace_len _ _ _ _
        | exact le_trans (scrape_trace_len _ _ _ _)
            (le_trans (List.IsPrefix.length_le (refresh_trace _ _))
              (List.IsPrefix.length_le (retryAux_trace env ex a n _)))
        | exact le_trans (scrape_trace_len _ _ _ _)
            (List.IsPrefix.length_le (refresh_trace _ _))
        | exact le_trans (scrape_trace_len _ _ _ _)
            (List.IsPrefix.length_le (retryAux_trace env ex a n _))

theorem retryAux_some (env : Env) (ex : Extractor) (a : String) :
    ∀ fuel st rec, (scrapeWithRetryAux env ex a fuel st).1 = some rec →
      rec.account_number = a ∧ isTruthy rec.location = true := by
  intro fuel
  induction fuel with
  | zero => intro st rec h; simp [scrapeWithRetryAux] at h
  | succ n ih =>
    intro st rec h
    rw [scrapeWithRetryAux] at h
    dsimp only at h
    split at h
    · rename_i hacc
      refine ⟨scrape_some_acct env ex a st rec h, ?_⟩
      rw [h] at hacc
      simpa [acceptable] using hacc
    · split at h
      · split at h
        · exact ih _ _ h
        · simp at h
      · exact ih _ _ h

theorem processOne_props (env : Env) (ex : Extractor) (a : String) (cf : Nat)
    (st : ScraperState) :
    (processOne env ex a cf st).2.properties = st.properties ∨
      ∃ rec, (processOne env ex a cf st).2.properties = st.properties ++ [rec] ∧
        rec.account_number = a ∧ isTruthy rec.location = true := by
  unfold processOne scrapeWithRetry
  dsimp only
  split
  · rename_i rec heq
    right
    obtain ⟨h1, h2⟩ := retryAux_some env ex a 3 st rec heq
    refine ⟨rec, ?_, h1, h2⟩
    split <;> simp [saveProgress, retryAux_properties]
  · left
    (repeat' split) <;> simp [retryAux_properties]

theorem processOne_stats_inv (env : Env) (ex : Extractor) (a : String) (cf : Nat)
    (st : ScraperState) (h : st.stats.successful ≤ st.stats.total_attempted) :
    (processOne env ex a cf st).2.stats.successful ≤
      (processOne env ex a cf st).2.stats.total_attempted := by
  unfold processOne scrapeWithRetry
  dsimp only
  have hsucc := retryAux_succ env ex a 3 st
  have hge := retryAux_ta_ge env ex a 3 st (by omega)
  have hmono := retryAux_ta_mono env ex a 3 st
  (repeat' split) <;> simp [saveProgress, refresh_ta, refresh_succ] <;> omega

theorem processOne_ta_le (env : Env) (ex : Extractor) (a : String) (cf : Nat)
    (st : ScraperState) :
    (processOne env ex a cf st).2.stats.total_attempted ≤
      st.stats.total_attempted + 3 := by
  unfold processOne scrapeWithRetry
  dsimp only
  have hle := retryAux_ta_le env ex a 3 st
  (repeat' split) <;> simp [saveProgress, refresh_ta] <;> omega

theorem snapInv_steady (st stF : ScraperState) (hI : SnapInv st)
    (hp : stF.properties = st.properties) (hs : stF.snapshots = st.snapshots)
    (ht : st.trace.length ≤ stF.trace.length) : SnapInv stF := by
  obtain ⟨h1, h2, h3, h4, h5⟩ := hI
  refine ⟨?_, ?_, ?_, ?_, ?_⟩
  · intro s hmem
    rw [hs] at hmem
    rw [hp]
    exact h1 s hmem
  · rw [hs]; exact h2
  · intro s hmem
    rw [hs] at hmem
    exact le_trans (h3 s hmem) ht
  · intro k hk hlen
    rw [hp] at hlen
    obtain ⟨s, hmem, hsl⟩ := h4 k hk hlen
    exact ⟨s, by rw [hs]; exact hmem, hsl⟩
  · rw [hs]; exact h5

theorem snapInv_save (st stF : ScraperState) (rec : PropertyRecord) (hI : SnapInv st)
    (hprops : stF.properties = st.properties ++ [rec])
    (hsnaps : stF.snapshots = st.snapshots)
    (htlen : st.trace.length + 1 ≤ stF.trace.length)
    (hmod : stF.properties.length % 10 = 0) : SnapInv (saveProgress stF) := by
  obtain ⟨h1, h2, h3, h4, h5⟩ := hI
  refine ⟨?_, ?_, ?_, ?_, ?_⟩
  · intro s hmem
    simp only [saveProgress, hsnaps, List.mem_append, List.mem_singleton] at hmem
    rcases hmem with hmem | rfl
    · obtain ⟨hpre, hdiv⟩ := h1 s hmem
      refine ⟨?_, hdiv⟩
      simp only [saveProgress]
      rw [hprops]
      exact hpre.trans (List.prefix_append _ _)
    · exact ⟨List.prefix_refl _, hmod⟩
  · simp only [saveProgress, hsnaps, List.map_append, List.map_cons, List.map_nil]
    refine List.Chain'.append h2 (List.chain'_singleton _) ?_
    intro x hx y hy
    simp only [List.head?_cons, Option.mem_def, Option.some.injEq] at hy
    subst hy
    obtain ⟨s, hsmem, rfl⟩ := List.mem_map.mp (List.mem_of_mem_getLast? hx)
    exact lt_of_le_of_lt (h3 s hsmem) (by omega)
  · intro s hmem
    simp only [saveProgress, hsnaps, List.mem_append, List.mem_singleton] at hmem
    simp only [saveProgress]
    rcases hmem with hmem | rfl
    · exact le_trans (h3 s hmem) (by omega)
    · exact le_refl _
  · intro k hk hlen
    simp only [saveProgress] at hlen ⊢
    by_cases hcase : 10 * k = stF.properties.length
    · exact ⟨(stF.trace.length, stF.properties), by
        rw [hsnaps]; exact List.mem_append_right _ (by simp), by simp [hcase]⟩
    · have hlen' : 10 * k ≤ st.properties.length := by
        rw [hprops] at hcase hlen
        simp only [List.length_append, List.length_singleton] at hcase hlen
        omega
      obtain ⟨s, hmem, hsl⟩ := h4 k hk hlen'
      exact ⟨s, by rw [hsnaps]; exact List.mem_append_left _ hmem, hsl⟩
  · intro s' hmem
    simp only [saveProgress, hsnaps] at hmem ⊢
    refine ⟨(stF.trace.length, stF.properties), List.getLast?_concat _, ?_⟩
    rcases List.mem_append.mp hmem with hmem | hmem
    · obtain ⟨hpre, _⟩ := h1 s' hmem
      rw [hprops]
      exact hpre.trans (List.prefix_append _ _)
    · simp only [List.mem_singleton] at hmem
      subst hmem
      exact List.prefix_refl _

theorem snapInv_nosave (st stF : ScraperState) (rec : PropertyRecord) (hI : SnapInv st)
    (hprops : stF.properties = st.properties ++ [rec])
    (hsnaps : stF.snapshots = st.snapshots)
    (htlen : st.trace.length + 1 ≤ stF.trace.length)
    (hmod : ¬stF.properties.length % 10 = 0) : SnapInv stF := by
  obtain ⟨h1, h2, h3, h4, h5⟩ := hI
  refine ⟨?_, ?_, ?_, ?_, ?_⟩
  · intro s hmem
    rw [hsnaps] at hmem
    obtain ⟨hpre, hdiv⟩ := h1 s hmem
    refine ⟨?_, hdiv⟩
    rw [hprops]
    exact hpre.trans (List.prefix_append _ _)
  · rw [hsnaps]; exact h2
  · intro s hmem
    rw [hsnaps] at hmem
    exact le_trans (h3 s hmem) (by omega)
  · intro k hk hlen
    have hne : 10 * k ≠ stF.properties.length := by
      intro hcontra
      exact hmod (by omega)
    have hlen' : 10 * k ≤ st.properties.length := by
      rw [hprops] at hlen hne
      simp only [List.length_append, List.length_singleton] at hlen hne
      omega
    obtain ⟨s, hmem, hsl⟩ := h4 k hk hlen'
    exact ⟨s, by rw [hsnaps]; exact hmem, hsl⟩
  · rw [hsnaps]; exact h5

theorem processOne_snapInv (env : Env) (ex : Extractor) (a : String) (cf : Nat)
    (st : ScraperState) (hI : SnapInv st) :
    SnapInv (processOne env ex a cf st).2 := by
  unfold processOne scrapeWithRetry
  dsimp only
  have hprops := retryAux_properties env ex a 3 st
  have hsnaps := retryAux_snapshots env ex a 3 st
  have htlen := retryAux_trace_len env ex a 3 st (by omega)
  split
  · rename_i rec heq
    dsimp only
    split
    · rename_i hmod
      refine snapInv_save st _ rec hI ?_ ?_ ?_ ?_
      · simp [hprops]
      · simp [hsnaps]
      · simpa using htlen
      · simpa using hmod
    · rename_i hmod
      refine snapInv_nosave st _ rec hI ?_ ?_ ?_ ?_
      · simp [hprops]
      · simp [hsnaps]
      · simpa using htlen
      · simpa using hmod
  · (repeat' split) <;>
      refine snapInv_steady st _ hI ?_ ?_ ?_ <;>
        first
          | (simp [hprops]
             done)
          | (simp [hsnaps]
             done)
          | (change st.trace.length ≤ (scrapeWithRetryAux env ex a 3 st).2.trace.length
             omega)
          | (refine le_trans ?_ (List.IsPrefix.length_le (refresh_trace _ _))
             change st.trace.length ≤ (scrapeWithRetryAux env ex a 3 st).2.trace.length
             omega)

theorem processList_snapInv (env : Env) (ex : Extractor) :
    ∀ (l : List String) (cf : Nat) (st : ScraperState), SnapInv st →
      SnapInv (processList env ex l cf st).2 := by
  intro l
  induction l with
  | nil => intro cf st h; simpa [processList] using h
  | cons a rest ih =>
    intro cf st h
    rw [processList]
    apply ih
    exact snapInv_steady (processOne env ex a cf st).2 _
      (processOne_snapInv env ex a cf st h) (by simp) (by simp) (by simp)

theorem processList_stats_inv (env : Env) (ex : Extractor) :
    ∀ (l : List String) (cf : Nat) (st : ScraperState),
      st.stats.successful ≤ st.stats.total_attempted →
      (processList env ex l cf st).2.stats.successful ≤
        (processList env ex l cf st).2.stats.total_attempted := by
  intro l
  induction l with
  | nil => intro cf st h; simpa [processList] using h
  | cons a rest ih =>
    intro cf st h
    rw [processList]
    apply ih
    simpa using processOne_stats_inv env ex a cf st h

theorem processList_ta_le (env : Env) (ex : Extractor) :
    ∀ (l : List String) (cf : Nat) (st : ScraperState),
      (processList env ex l cf st).2.stats.total_attempted ≤
        st.stats.total_attempted + 3 * l.length := by
  intro l
  induction l with
  | nil => intro cf st; simp [processList]
  | cons a rest ih =>
    intro cf st
    rw [processList]
    refine le_trans (ih _ _) ?_
    have h1 := processOne_ta_le env ex a cf st
    simp only [wait_stats, List.length_cons]
    omega

theorem processList_props (env : Env) (ex : Extractor) :
    ∀ (l : List String) (cf : Nat) (st : ScraperState) (r : PropertyRecord),
      r ∈ (processList env ex l cf st).2.properties →
      r ∈ st.properties ∨ isTruthy r.location = true := by
  intro l
  induction l with
  | nil => intro cf st r h; left; simpa [processList] using h
  | cons a rest ih =>
    intro cf st r h
    rw [processList] at h
    rcases ih _ _ r h with hmem | htr
    · rw [wait_properties] at hmem
      rcases processOne_props env ex a cf st with hsame | ⟨rec, heqp, _, htr⟩
      · left; rwa [hsame] at hmem
      · rw [heqp] at hmem
        rcases List.mem_append.mp hmem with h' | h'
        · left; exact h'
        · right
          simp only [List.mem_singleton] at h'
          subst h'
          exact htr
    · right; exact htr

theorem processList_nodup (env : Env) (ex : Extractor) :
    ∀ (l : List String) (cf : Nat) (st : ScraperState),
      (st.properties.map (fun p => p.account_number)).Nodup →
      l.Nodup →
      (∀ b ∈ l, b ∉ st.properties.map (fun p => p.account_number)) →
      ((processList env ex l cf st).2.properties.map
        (fun p => p.account_number)).Nodup := by
  intro l
  induction l with
  | nil => intro cf st h _ _; simpa [processList] using h
  | cons a rest ih =>
    intro cf st hnd hlnd hdisj
    rw [processList]
    rcases processOne_props env ex a cf st with hsame | ⟨rec, heqp, hacct, _⟩
    · apply ih
      · simpa [hsame] using hnd
      · exact List.Nodup.of_cons hlnd
      · intro b hb
        have := hdisj b (List.mem_cons_of_mem a hb)
        simpa [hsame] using this
    · apply ih
      · rw [wait_properties, heqp]
        simp only [List.map_append, List.map_cons, List.map_nil, hacct]
        refine List.Nodup.append hnd (List.nodup_singleton a) ?_
        intro x hx hx2
        simp only [List.mem_singleton] at hx2
        subst hx2
        exact hdisj x (List.mem_cons_self _ _) hx
      · exact List.Nodup.of_cons hlnd
      · intro b hb
        rw [wait_properties, heqp]
        simp only [List.map_append, List.map_cons, List.map_nil, hacct,
          List.mem_append, List.mem_singleton]
        push_neg
        refine ⟨hdisj b (List.mem_cons_of_mem a hb), ?_⟩
        intro hba
        exact (List.nodup_cons.mp hlnd).1 (hba ▸ hb)

theorem applyResume_nodup (resume : Option String) (l : List String) (h : l.Nodup) :
    (applyResume resume l).Nodup := by
  unfold applyResume
  match resume with
  | none => exact h
  | some r =>
    dsimp only
    split
    · exact List.Nodup.sublist (List.drop_sublist _ _) h
    · exact h

/-! ### Claim theorems -/

/-- Claim C8 (confirmed): the session-expiry classifier returns `true`
exactly when the body is absent, contains the server's session-timeout
marker string, or is shorter than the 1000-character threshold;
otherwise it returns `false`. -/
theorem claim_C8 (body : Option (List Char)) :
    isSessionExpired body = true ↔
      body = none ∨ ∃ b, body = some b ∧
        (containsSub sessionTimeoutMarker b = true ∨ b.length < 1000) := by
  cases body with
  | none => simp [isSessionExpired]
  | some b =>
    by_cases h1 : b.isEmpty
    · have hb : b = [] := by simpa [List.isEmpty_iff] using h1
      subst hb
      simp [isSessionExpired]
    · by_cases h2 : containsSub sessionTimeoutMarker b = true
      · simp [isSessionExpired, h1, h2]
      · by_cases h3 : b.length < 1000
        · simp [isSessionExpired, h1, h2, h3]
        · simp [isSessionExpired, h1, h2, h3]

/-- Claim C9 (confirmed): the text cleaner is idempotent on its own
non-`None` output, its result is never the empty string or the literal
`'--'`, and the copy in `BraintreeAssessorScraper.py` computes the same
function as the one in `BraintreeScraper.py`. -/
theorem claim_C9 :
    (∀ t r, cleanText t = some r → cleanText (some r) = some r) ∧
    (∀ t r, cleanText t = some r → r ≠ [] ∧ r ≠ ['-', '-']) ∧
    (∀ t, clean_text t = cleanText t) := by
  refine ⟨cleanText_idempotent, ?_, fun t => rfl⟩
  intro t r h
  match t with
  | none => simp [cleanText] at h
  | some t =>
    obtain ⟨_, hne, hdd⟩ := cleanText_some t r h
    constructor
    · intro hcontra
      rw [hcontra] at hne
      simp at hne
    · intro hcontra
      rw [hcontra] at hdd
      simp at hdd

/-- Witness for C9 at a concrete input: cleaning `" a  b"` gives
`"a b"`, and re-cleaning `"a b"` returns it unchanged. -/
theorem claim_C9_witness :
    cleanText (some (' ' :: 'a' :: ' ' :: ' ' :: 'b' :: [])) =
      some ('a' :: ' ' :: 'b' :: []) ∧
    cleanText (some ('a' :: ' ' :: 'b' :: [])) = some ('a' :: ' ' :: 'b' :: []) ∧
    ('a' :: ' ' :: 'b' :: []) ≠ [] :=
  ⟨by decide,
   claim_C9.1 (some (' ' :: 'a' :: ' ' :: ' ' :: 'b' :: []))
     ('a' :: ' ' :: 'b' :: []) (by decide),
   (claim_C9.2.1 (some (' ' :: 'a' :: ' ' :: ' ' :: 'b' :: []))
     ('a' :: ' ' :: 'b' :: []) (by decide)).1⟩

/-- Claim C1 (amended, corrected): a record whose primary location field
is null (or empty) is never appended to the output record collection;
and every fetch attempt that itself returns no record first writes the
identifier into the failure map with a reason.  (The original claim
fails: a fetch whose detail page parses but yields no location is
discarded by the retry wrapper without any failure-map entry — see the
counterexample.) -/
theorem claim_C1 :
    (∀ (env : Env) (ex : Extractor) (l : List String) (resume : Option String)
       (st : ScraperState) (r : PropertyRecord),
       r ∈ (processPropertiesSlowly env ex l resume st).properties →
       r ∈ st.properties ∨ isTruthy r.location = true) ∧
    (∀ (env : Env) (ex : Extractor) (a : String) (st : ScraperState),
       (scrapePropertyDetails env ex a st).1 = none →
       ∃ reason,
         dictGet (scrapePropertyDetails env ex a st).2.failed_properties a =
           some reason) := by
  constructor
  · intro env ex l resume st r h
    unfold processPropertiesSlowly at h
    dsimp only at h
    split at h
    · left; exact h
    · exact processList_props env ex _ 0 st r h
  · exact scrape_none_failed

/-- Counterexample for C1 as stated: under `env1`/`exNone` the single
identifier's fetch is attempted 3 times and fails (no record captured),
yet the identifier never appears in the failure map. -/
theorem claim_C1_cex :
    c1run.properties = [] ∧
    c1run.stats.total_attempted = 3 ∧
    c1run.stats.successful = 0 ∧
    dictGet c1run.failed_properties "679" = none := by decide

/-- Witness for C1 (amended): a successfully captured record has a
truthy location, and a failing `_scrape_property_details` call records a
reason. -/
theorem claim_C1_witness :
    ((⟨"9", some ['L'], [], []⟩ : PropertyRecord) ∈ initialState.properties ∨
      isTruthy (some ['L']) = true) ∧
    (∃ reason,
      dictGet (scrapePropertyDetails env3 exNone "679" initialState).2.failed_properties
        "679" = some reason) :=
  ⟨claim_C1.1 env7 exLoc ["9"] none initialState _ (by decide),
   claim_C1.2 env3 exNone "679" initialState (by decide)⟩

/-- Claim C2 (code bug): the spec's invariant — no data-fetching request
while `session_valid == false`, with a re-prime before the next data
fetch once the pacer marks the session stale — is violated by the code:
`_wait_between_requests` clears the flag every 50th call (its comment
says "Force session refresh after long break") but no code path ever
reads `session_valid`, so the next identifier's `Summary.asp` fetch is
issued with the flag false and no re-priming.  Concretely, in a primed
51-identifier run the trace contains a summary data fetch issued while
the flag is false. -/
theorem claim_C2 :
    c2run.trace.any (fun p => !p.1 && p.2 == Req.summary "a50") = true := by decide

/-- Claim C3 (amended, corrected): for every identifier the fetch is
attempted at most 3 times (and over a whole driver run at most 3 per
listed identifier, so the run always proceeds past each identifier); a
failed attempt is followed by a session re-prime only when the
cumulative `empty_responses` counter exceeds the cumulative `successful`
counter (and the attempt was not the last), not after every failure. -/
theorem claim_C3 (env : Env) (ex : Extractor) (a : String) (st : ScraperState)
    (l : List String) (cf : Nat) :
    (scrapeWithRetry env ex a st).2.stats.total_attempted ≤
      st.stats.total_attempted + 3 ∧
    (processList env ex l cf st).2.stats.total_attempted ≤
      st.stats.total_attempted + 3 * l.length :=
  ⟨by simpa [scrapeWithRetry] using retryAux_ta_le env ex a 3 st,
   processList_ta_le env ex l cf st⟩

/-- Counterexample for C3 as stated: with the detail frame failing with
HTTP 500 (so `empty_responses` stays at 0), the first failed attempt is
followed immediately by the second attempt with no re-priming request
(`default.asp`/search) in between — the trace holds only the six data
fetches of the three attempts. -/
theorem claim_C3_cex :
    c3run.1 = none ∧
    c3run.2.stats.total_attempted = 3 ∧
    c3run.2.trace =
      [(false, Req.summary "679"), (false, Req.summaryBottom "679"),
       (false, Req.summary "679"), (false, Req.summaryBottom "679"),
       (false, Req.summary "679"), (false, Req.summaryBottom "679")] := by decide

/-- Claim C4 (amended, corrected): when the consecutive-failure counter
reaches the threshold 5, a session refresh is attempted before the next
identifier; the counter is reset to zero exactly when that refresh
succeeds, and keeps its value (at or past the threshold) when the
refresh fails. -/
theorem claim_C4 (env : Env) (ex : Extractor) (a : String) (cf : Nat)
    (st : ScraperState) (hcf : 4 ≤ cf)
    (hfail : (scrapeWithRetry env ex a st).1 = none) :
    processOne env ex a cf st =
      (if (refreshSessionWithSearch env (scrapeWithRetry env ex a st).2).1 then 0
        else cf + 1,
       (refreshSessionWithSearch env (scrapeWithRetry env ex a st).2).2) := by
  unfold processOne
  try dsimp only
  rw [hfail]
  try dsimp only
  have h5 : 5 ≤ cf + 1 := by omega
  rw [if_pos h5]

/-- Counterexample for C4 as stated: five consecutive failures with a
failing refresh (`env4`) leave the counter at 5 — it is not reset to
zero even though the refresh was attempted (the trace contains the
priming home-page request). -/
theorem claim_C4_cex :
    c4run.1 = 5 ∧
    c4run.2.trace.any (fun p => p.2 == Req.homePage) = true := by decide

/-- Witness for C4 (amended) at a concrete input where the fetch fails
and the refresh succeeds: the counter comes back as 0. -/
theorem claim_C4_witness :
    processOne env4b exNone "1" 4 initialState =
      (if (refreshSessionWithSearch env4b (scrapeWithRetry env4b exNone "1" initialState).2).1
        then 0 else 5,
       (refreshSessionWithSearch env4b (scrapeWithRetry env4b exNone "1" initialState).2).2) :=
  claim_C4 env4b exNone "1" 4 initialState (by decide) (by decide)

/-- Claim C5 (amended, corrected): when the detail-frame response of a
fetch is classified session-expired, the fetch returns no record, issues
neither the sales-history nor the historical-assessment request (the
trace grows by exactly the summary and detail-frame requests), persists
nothing, and records the identifier with reason `"Session expired"`
(capital S — the claim's quoted reason string `"session expired"` does
not match the code's). -/
theorem claim_C5 (env : Env) (ex : Extractor) (a : String) (st : ScraperState)
    (b1 b2 : List Char)
    (h1 : env st.trace.length (Req.summary a) = Resp.ok 200 b1)
    (h2 : env (st.trace.length + 1) (Req.summaryBottom a) = Resp.ok 200 b2)
    (h3 : isSessionExpired (some b2) = true) :
    (scrapePropertyDetails env ex a st).1 = none ∧
    (scrapePropertyDetails env ex a st).2.properties = st.properties ∧
    (scrapePropertyDetails env ex a st).2.snapshots = st.snapshots ∧
    dictGet (scrapePropertyDetails env ex a st).2.failed_properties a =
      some "Session expired" ∧
    (scrapePropertyDetails env ex a st).2.trace =
      st.trace ++ [(st.session_valid, Req.summary a),
                   (st.session_valid, Req.summaryBottom a)] := by
  unfold scrapePropertyDetails
  simp only [bumpAttempted, pushTrace]
  try dsimp only
  rw [h1]
  try dsimp only
  rw [if_neg (by decide)]
  rw [show (st.trace ++ [(st.session_valid, Req.summary a)]).length =
    st.trace.length + 1 by simp]
  rw [h2]
  try dsimp only
  rw [if_pos (by decide), if_pos h3]
  refine ⟨rfl, rfl, rfl, ?_, ?_⟩
  · exact dictGet_dictSet _ _ _
  · simp [recordExpired]

/-- Counterexample for C5 as stated: the failure-map reason written by
the code is `"Session expired"`, not the claimed `"session expired"`. -/
theorem claim_C5_cex :
    c5run.1 = none ∧
    dictGet c5run.2.failed_properties "679" = some "Session expired" ∧
    dictGet c5run.2.failed_properties "679" ≠ some "session expired" ∧
    c5run.2.trace = [(false, Req.summary "679"), (false, Req.summaryBottom "679")] := by
  decide

/-- Witness for C5 (amended) at the concrete expired-frame scenario. -/
theorem claim_C5_witness :
    c5run.1 = none ∧
    c5run.2.properties = initialState.properties ∧
    c5run.2.snapshots = initialState.snapshots ∧
    dictGet c5run.2.failed_properties "679" = some "Session expired" ∧
    c5run.2.trace = initialState.trace ++
      [(initialState.session_valid, Req.summary "679"),
       (initialState.session_valid, Req.summaryBottom "679")] :=
  claim_C5 env5 exNone "679" initialState [] [] rfl rfl (by decide)

/-- Claim C6 (confirmed): the link set is deduplicated
(`_collect_all_property_links`) and filtered against already-captured
identifiers before dispatch, so — whatever duplicates the raw link list
holds — the output record collection never contains an identifier
twice. -/
theorem claim_C6 (env : Env) (ex : Extractor) (raw : List String)
    (resume : Option String) (st : ScraperState)
    (h : (st.properties.map (fun p => p.account_number)).Nodup) :
    ((processPropertiesSlowly env ex (collectAllPropertyLinks raw) resume
        st).properties.map (fun p => p.account_number)).Nodup := by
  unfold processPropertiesSlowly collectAllPropertyLinks
  dsimp only
  split
  · exact h
  · apply processList_nodup env ex _ 0 st h
    · exact List.Nodup.filter _ (applyResume_nodup resume _ (List.nodup_dedup raw))
    · intro b hb
      have hpred := List.of_mem_filter hb
      simpa using hpred

/-- Witness for C6: a raw link list with duplicates still yields a
duplicate-free output identifier list. -/
theorem claim_C6_witness :
    ((c6run.properties.map (fun p => p.account_number)).Nodup) :=
  claim_C6 env7 exLoc ["1", "2", "1", "2", "1"] none initialState (by decide)

/-- Claim C7 (confirmed): starting from a fresh state, every snapshot
written by `_save_progress` is the full record set accumulated at a
10-record boundary (an initial segment of the final record list whose
length is a multiple of 10), the snapshot timestamps strictly increase
(so no snapshot file ever overwrites an earlier one), a snapshot exists
for every crossed multiple of 10, and once at least 20 records have been
captured the last snapshot contains at least the first 20 records —
in particular after 23 successes followed by an interrupt. -/
theorem claim_C7 (env : Env) (ex : Extractor) (l : List String)
    (resume : Option String) (st : ScraperState)
    (hp : st.properties = []) (hs : st.snapshots = []) :
    (∀ s ∈ (processPropertiesSlowly env ex l resume st).snapshots,
       s.2 <+: (processPropertiesSlowly env ex l resume st).properties ∧
       s.2.length % 10 = 0) ∧
    List.Chain' (· < ·)
      ((processPropertiesSlowly env ex l resume st).snapshots.map Prod.fst) ∧
    (∀ k, 0 < k →
       10 * k ≤ (processPropertiesSlowly env ex l resume st).properties.length →
       ∃ s ∈ (processPropertiesSlowly env ex l resume st).snapshots,
         s.2.length = 10 * k) ∧
    (20 ≤ (processPropertiesSlowly env ex l resume st).properties.length →
       ∃ s, (processPropertiesSlowly env ex l resume st).snapshots.getLast? = some s ∧
         (processPropertiesSlowly env ex l resume st).properties.take 20 <+: s.2) := by
  have h0 : SnapInv st := by
    refine ⟨?_, ?_, ?_, ?_, ?_⟩
    · intro s hmem; rw [hs] at hmem; simp at hmem
    · rw [hs]; simp
    · intro s hmem; rw [hs] at hmem; simp at hmem
    · intro k hk hlen
      rw [hp] at hlen
      simp at hlen
      omega
    · intro s hmem; rw [hs] at hmem; simp at hmem
  have hF : SnapInv (processPropertiesSlowly env ex l resume st) := by
    unfold processPropertiesSlowly
    dsimp only
    split
    · exact h0
    · exact processList_snapInv env ex _ 0 st h0
  obtain ⟨h1, h2, h3, h4, h5⟩ := hF
  refine ⟨h1, h2, h4, ?_⟩
  intro h20
  obtain ⟨s20, hmem20, hlen20⟩ := h4 2 (by omega) (by omega)
  obtain ⟨sl, hlast, hdom⟩ := h5 s20 hmem20
  refine ⟨sl, hlast, ?_⟩
  obtain ⟨hpre, _⟩ := h1 s20 hmem20
  have heq : s20.2 = (processPropertiesSlowly env ex l resume st).properties.take 20 := by
    have htake := List.prefix_iff_eq_take.mp hpre
    rw [hlen20] at htake
    simpa using htake
  rw [← heq]
  exact hdom

/-- Witness for C7: the 23-success run checkpoints at 10 and 20, and its
last snapshot holds the first 20 records. -/
theorem claim_C7_witness :
    23 = c7run.properties.length ∧
    ∃ s, c7run.snapshots.getLast? = some s ∧ c7run.properties.take 20 <+: s.2 :=
  ⟨by decide,
   (claim_C7 env7 exLoc ids7 none initialState rfl rfl).2.2.2 (by decide)⟩

/-- Claim C10 (confirmed): the driver loop preserves
`successful ≤ total_attempted` — the success counter is bumped only
after a fetch attempt bumped the attempt counter. -/
theorem claim_C10 (env : Env) (ex : Extractor) (l : List String)
    (resume : Option String) (st : ScraperState)
    (h : st.stats.successful ≤ st.stats.total_attempted) :
    (processPropertiesSlowly env ex l resume st).stats.successful ≤
      (processPropertiesSlowly env ex l resume st).stats.total_attempted := by
  unfold processPropertiesSlowly
  dsimp only
  split
  · exact h
  · exact processList_stats_inv env ex _ 0 st h

/-- Witness for C10 at the 23-success scenario. -/
theorem claim_C10_witness :
    (processPropertiesSlowly env7 exLoc ids7 none initialState).stats.successful ≤
      (processPropertiesSlowly env7 exLoc ids7 none initialState).stats.total_attempted :=
  claim_C10 env7 exLoc ids7 none initialState (by decide)

end Braintree
